import Mathlib

/-!
Shallow embedding of the Discord-Presence-API repository:
the TTL memory cache and the dual-backend cache layer (src/utils/cache.js),
the normalizers and read/fan-out orchestration of the Discord handler
(src/discord/client.js), the HTTP route handlers (src/routes/api.js), and
the socket subscription registry (src/index.js).

Time is modelled as a natural number of milliseconds (Date.now()).
JavaScript falsiness of the empty string and of 0 is modelled explicitly
where the source relies on it.  The Redis client is modelled as a store
plus two flags: configured (global.redisClient is set) and failing (every
Redis call throws); JSON serialization into Redis is modelled as the
identity, which is faithful for the fixed record shapes stored here.
-/

/-! ### Memory cache with TTL (src/utils/cache.js, lines 1 to 24) -/

structure CacheEntry (α : Type) where
  data : α
  timestamp : Nat
deriving Repr, DecidableEq

def MemCache (α : Type) : Type := String → Option (CacheEntry α)

def emptyMem {α : Type} : MemCache α := fun _ => none

/-- CACHE_TTL = 5 * 60 * 1000 milliseconds. -/
def CACHE_TTL : Nat := 5 * 60 * 1000

/-- setCache stores the value with the current write timestamp. -/
def setCache {α : Type} (c : MemCache α) (key : String) (v : α) (now : Nat) : MemCache α :=
  fun k => if k = key then some ⟨v, now⟩ else c k

/-- getCache returns null on a missing key; on an entry older than
CACHE_TTL it deletes the entry and returns null; otherwise it returns the
stored data.  The returned pair is (result, updated map). -/
def getCache {α : Type} (c : MemCache α) (key : String) (now : Nat) :
    Option α × MemCache α :=
  match c key with
  | none => (none, c)
  | some e =>
    if CACHE_TTL < now - e.timestamp then
      (none, fun k => if k = key then none else c k)
    else
      (some e.data, c)

/-- A sequence of getCache reads, each at its own time, threading the map. -/
def doReads {α : Type} (c : MemCache α) : List (String × Nat) → MemCache α
  | [] => c
  | r :: rest => doReads (getCache c r.1 r.2).2 rest

/-! ### Dual-backend cache layer (src/utils/cache.js, lines 26 to 117) -/

structure CacheState (α : Type) where
  redisConfigured : Bool
  redisFailing : Bool
  redisStore : String → Option α
  memory : MemCache α

def emptyCS {α : Type} : CacheState α :=
  { redisConfigured := false, redisFailing := false,
    redisStore := fun _ => none, memory := emptyMem }

/-- Body shared by cacheUser and cachePresence: when Redis is configured,
setEx into Redis; if that throws, the catch block writes to the memory
cache instead; without Redis, write to the memory cache. -/
def cacheWithKey {α : Type} (cs : CacheState α) (key : String) (v : α) (now : Nat) :
    CacheState α :=
  if cs.redisConfigured then
    if cs.redisFailing then
      { cs with memory := setCache cs.memory key v now }
    else
      { cs with redisStore := fun k => if k = key then some v else cs.redisStore k }
  else
    { cs with memory := setCache cs.memory key v now }

/-- Body shared by getCachedUser and getCachedPresence: when Redis is
configured, read Redis and fall through to returning null when the key is
absent or the call throws (the catch only logs); the memory cache is read
only when Redis is not configured. -/
def getWithKey {α : Type} (cs : CacheState α) (key : String) (now : Nat) :
    Option α × CacheState α :=
  if cs.redisConfigured then
    if cs.redisFailing then (none, cs)
    else
      match cs.redisStore key with
      | some v => (some v, cs)
      | none => (none, cs)
  else
    match getCache cs.memory key now with
    | (r, m) => (r, { cs with memory := m })

def cacheUser {α : Type} (cs : CacheState α) (userId : String) (v : α) (now : Nat) :
    CacheState α :=
  cacheWithKey cs ("user:" ++ userId) v now

def getCachedUser {α : Type} (cs : CacheState α) (userId : String) (now : Nat) :
    Option α × CacheState α :=
  getWithKey cs ("user:" ++ userId) now

def cachePresence {α : Type} (cs : CacheState α) (userId : String) (v : α) (now : Nat) :
    CacheState α :=
  cacheWithKey cs ("presence:" ++ userId) v now

def getCachedPresence {α : Type} (cs : CacheState α) (userId : String) (now : Nat) :
    Option α × CacheState α :=
  getWithKey cs ("presence:" ++ userId) now

/-- invalidateUser deletes both the user key and the presence key of the
given id, from Redis when configured (nothing is removed when the deletes
throw, since the catch only logs) and from the memory map otherwise. -/
def invalidateUser {α : Type} (cs : CacheState α) (userId : String) : CacheState α :=
  if cs.redisConfigured then
    if cs.redisFailing then cs
    else
      { cs with redisStore := fun k =>
          if k = "user:" ++ userId ∨ k = "presence:" ++ userId then none
          else cs.redisStore k }
  else
    { cs with memory := fun k =>
        if k = "user:" ++ userId ∨ k = "presence:" ++ userId then none
        else cs.memory k }

/-- The value observable for a key in the currently active backend. -/
def entryAt {α : Type} (cs : CacheState α) (k : String) : Option α :=
  if cs.redisConfigured then cs.redisStore k
  else (cs.memory k).map CacheEntry.data

/-! ### Normalizers (src/discord/client.js, formatUser and formatPresence)

Raw inputs mirror the fields the source reads off the discord.js objects;
optional fields are Options.  The JavaScript idiom x-or-null maps the
absent value, and the falsy empty string or zero, to null. -/

structure RawUser where
  id : String
  username : String
  displayName : String
  avatar : Option String
  discriminator : String
  publicFlags : Nat
  banner : Option String
  hexAccentColor : Option String
  avatarDecorationAsset : Option String
  premiumType : Nat
  verified : Bool
  createdAt : String
deriving Repr, DecidableEq

structure RawAssets where
  largeImage : Option String
  largeText : Option String
  smallImage : Option String
  smallText : Option String
deriving Repr, DecidableEq

structure RawTimestamps where
  start : Option Nat
  «end» : Option Nat
deriving Repr, DecidableEq

structure RawActivity where
  name : String
  type : Nat
  details : Option String
  state : Option String
  applicationId : Option String
  assets : Option RawAssets
  timestamps : Option RawTimestamps
deriving Repr, DecidableEq

structure RawPresence where
  userId : String
  status : String
  activities : List RawActivity
  guildId : Option String
deriving Repr, DecidableEq

/-- JavaScript x-or-null on strings: absent or empty becomes null. -/
def jsOrNullStr : Option String → Option String
  | none => none
  | some s => if s = "" then none else some s

/-- JavaScript x-or-null on numbers: absent or zero becomes null. -/
def jsOrNullNat : Option Nat → Option Nat
  | none => none
  | some n => if n = 0 then none else some n

/-- JavaScript template interpolation of a nullable string. -/
def jsInterp : Option String → String
  | none => "null"
  | some s => s

structure UserRecord where
  id : String
  username : String
  displayName : String
  avatar : Option String
  discriminator : String
  publicFlags : Nat
  banner : Option String
  bannerColor : Option String
  accentColor : Option String
  avatarDecoration : Option String
  premiumType : Nat
  verified : Bool
  createdAt : String
deriving Repr, DecidableEq

structure AssetBundle where
  largeImage : Option String
  largeText : Option String
  smallImage : Option String
  smallText : Option String
deriving Repr, DecidableEq

structure TimestampsRecord where
  start : Option Nat
  «end» : Option Nat
deriving Repr, DecidableEq

structure ActivityRecord where
  name : String
  type : Nat
  details : Option String
  state : Option String
  applicationId : Option String
  assets : Option AssetBundle
  timestamps : Option TimestampsRecord
deriving Repr, DecidableEq

structure PresenceRecord where
  userId : String
  status : String
  activities : List ActivityRecord
  lastSeen : Option Nat
  guildId : Option String
deriving Repr, DecidableEq

/-- formatUser of src/discord/client.js: truthy asset hashes are resolved
into fully-qualified CDN URLs, falsy ones become null. -/
def formatUser (u : RawUser) : UserRecord :=
  { id := u.id
    username := u.username
    displayName := u.displayName
    avatar :=
      match u.avatar with
      | none => none
      | some h =>
        if h = "" then none
        else some ("https://cdn.discordapp.com/avatars/" ++ u.id ++ "/" ++ h ++ ".png")
    discriminator := u.discriminator
    publicFlags := u.publicFlags
    banner :=
      match u.banner with
      | none => none
      | some h =>
        if h = "" then none
        else some ("https://cdn.discordapp.com/banners/" ++ u.id ++ "/" ++ h ++ ".png")
    bannerColor := jsOrNullStr u.hexAccentColor
    accentColor := jsOrNullStr u.hexAccentColor
    avatarDecoration := jsOrNullStr u.avatarDecorationAsset
    premiumType := u.premiumType
    verified := u.verified
    createdAt := u.createdAt }

/-- Per-asset-bundle part of formatPresence; the owning application id is
interpolated into the URL (null interpolates as the text null, as in a
JavaScript template literal). -/
def formatAssets (appId : Option String) (b : RawAssets) : AssetBundle :=
  { largeImage :=
      match b.largeImage with
      | none => none
      | some h =>
        if h = "" then none
        else some ("https://cdn.discordapp.com/app-assets/" ++ jsInterp appId ++ "/" ++ h ++ ".png")
    largeText := jsOrNullStr b.largeText
    smallImage :=
      match b.smallImage with
      | none => none
      | some h =>
        if h = "" then none
        else some ("https://cdn.discordapp.com/app-assets/" ++ jsInterp appId ++ "/" ++ h ++ ".png")
    smallText := jsOrNullStr b.smallText }

/-- Per-activity part of formatPresence. -/
def formatActivity (a : RawActivity) : ActivityRecord :=
  { name := a.name
    type := a.type
    details := jsOrNullStr a.details
    state := jsOrNullStr a.state
    applicationId := jsOrNullStr a.applicationId
    assets := (a.assets).map (formatAssets a.applicationId)
    timestamps := (a.timestamps).map (fun t => ⟨jsOrNullNat t.start, jsOrNullNat t.«end»⟩) }

/-- formatPresence of src/discord/client.js; lastSeen is Date.now(). -/
def formatPresence (now : Nat) (p : RawPresence) : PresenceRecord :=
  { userId := p.userId
    status := p.status
    activities := p.activities.map formatActivity
    lastSeen := some now
    guildId := p.guildId }

/-! ### Discord handler (src/discord/client.js, getUser and getPresence)

The upstream collaborator is modelled as total lookup functions on the
handler: users.fetch as an Except whose error is the discord.js error
code, guilds.cache.get and presences.cache.get as Options, and the
member fetch (whose rejection is swallowed by catch) as an Option. -/

structure Member where
  presence : Option RawPresence

structure Guild where
  members : String → Option Member

structure DiscordHandler where
  ready : Bool
  users : String → Except Nat RawUser
  guilds : String → Option Guild
  presences : String → Option RawPresence

inductive SvcError where
  | notReady
  | api (code : Nat)
deriving Repr, DecidableEq

/-- getUser of src/discord/client.js.  The third component counts the
upstream users.fetch calls performed (0 or 1).  A not-ready client
throws; a cache hit returns immediately; otherwise the upstream fetch
either throws (rethrown by the catch) or is formatted, cached and
returned. -/
def DiscordHandler.getUser (h : DiscordHandler) (cs : CacheState UserRecord)
    (now : Nat) (userId : String) :
    Except SvcError UserRecord × CacheState UserRecord × Nat :=
  if h.ready then
    match getCachedUser cs userId now with
    | (some u, cs1) => (.ok u, cs1, 0)
    | (none, cs1) =>
      match h.users userId with
      | .error c => (.error (.api c), cs1, 1)
      | .ok raw =>
        let f := formatUser raw
        (.ok f, cacheUser cs1 userId f now, 1)
  else
    (.error .notReady, cs, 0)

/-- The offline default record returned when no presence is found. -/
def offlineDefault (userId : String) (guildId : Option String) : PresenceRecord :=
  { userId := userId, status := "offline", activities := [], lastSeen := none,
    guildId := guildId }

/-- The fall-through of getPresence: the general presence cache of the
client, else the synthesized offline record. -/
def generalLookup (h : DiscordHandler) (cs : CacheState PresenceRecord)
    (now : Nat) (userId : String) (guildId : Option String) :
    Except SvcError PresenceRecord × CacheState PresenceRecord :=
  match h.presences userId with
  | some raw =>
    let pd := formatPresence now raw
    (.ok pd, cachePresence cs userId pd now)
  | none => (.ok (offlineDefault userId guildId), cs)

/-- getPresence of src/discord/client.js.  The Bool component records
whether a guild-scoped member fetch was attempted.  Note the cached
record, when present, is returned before the guildId argument is ever
consulted. -/
def DiscordHandler.getPresence (h : DiscordHandler) (cs : CacheState PresenceRecord)
    (now : Nat) (userId : String) (guildId : Option String) :
    Except SvcError PresenceRecord × CacheState PresenceRecord × Bool :=
  if h.ready then
    match getCachedPresence cs userId now with
    | (some p, cs1) => (.ok p, cs1, false)
    | (none, cs1) =>
      match guildId with
      | some g =>
        match h.guilds g with
        | some guild =>
          match guild.members userId with
          | some m =>
            match m.presence with
            | some rawP =>
              let pd := formatPresence now rawP
              (.ok pd, cachePresence cs1 userId pd now, true)
            | none =>
              match generalLookup h cs1 now userId guildId with
              | (r, cs2) => (r, cs2, true)
          | none =>
            match generalLookup h cs1 now userId guildId with
            | (r, cs2) => (r, cs2, true)
        | none =>
          match generalLookup h cs1 now userId guildId with
          | (r, cs2) => (r, cs2, false)
      | none =>
        match generalLookup h cs1 now userId guildId with
        | (r, cs2) => (r, cs2, false)
  else
    (.error .notReady, cs, false)

/-! ### HTTP routes (src/routes/api.js) -/

/-- The route validation regexp: one or more ASCII digits. -/
def validId (s : String) : Bool := !s.data.isEmpty && s.data.all Char.isDigit

/-- GET /users/:userId.  Result is (status, body, cache state): 400 on a
non-numeric id, 200 with the cached record on a cache hit, otherwise the
handler result, with error code 10013 mapped to 404 and every other
error to 500. -/
def usersRoute (h : DiscordHandler) (cs : CacheState UserRecord) (now : Nat)
    (userId : String) : Nat × Option UserRecord × CacheState UserRecord :=
  if validId userId then
    match getCachedUser cs userId now with
    | (some u, cs1) => (200, some u, cs1)
    | (none, cs1) =>
      match DiscordHandler.getUser h cs1 now userId with
      | (.ok u, cs2, _) => (200, some u, cs2)
      | (.error e, cs2, _) =>
        (if e = .api 10013 then 404 else 500, none, cs2)
  else (400, none, cs)

/-- GET /presence/:userId.  Result is (status, body, cache state,
guild-scoped-lookup-attempted).  A cached record is returned directly
when no guildId was supplied or its guildId matches; otherwise the
handler is called, and any thrown error becomes a 500. -/
def presenceRoute (h : DiscordHandler) (cs : CacheState PresenceRecord) (now : Nat)
    (userId : String) (guildId : Option String) :
    Nat × Option PresenceRecord × CacheState PresenceRecord × Bool :=
  if validId userId then
    if guildId.elim true validId then
      match getCachedPresence cs userId now with
      | (some p, cs1) =>
        if guildId.isNone || decide (p.guildId = guildId) then (200, some p, cs1, false)
        else
          match DiscordHandler.getPresence h cs1 now userId guildId with
          | (.ok q, cs2, att) => (200, some q, cs2, att)
          | (.error _, cs2, att) => (500, none, cs2, att)
      | (none, cs1) =>
        match DiscordHandler.getPresence h cs1 now userId guildId with
        | (.ok q, cs2, att) => (200, some q, cs2, att)
        | (.error _, cs2, att) => (500, none, cs2, att)
    else (400, none, cs, false)
  else (400, none, cs, false)

/-! ### Subscription registry and fan-out (src/index.js and the
presenceUpdate listener of src/discord/client.js) -/

/-- Socket.io rooms: room name to member socket ids. -/
def Rooms : Type := String → List String

/-- socket.join is idempotent: joining a room the socket is already in
changes nothing. -/
def joinRoom (r : Rooms) (room sid : String) : Rooms :=
  fun k =>
    if k = room then
      if sid ∈ r room then r room else r room ++ [sid]
    else r k

/-- The subscribe_user socket handler: an unauthenticated socket is
refused, otherwise it joins the room user_ followed by the user id. -/
def subscribeUser (authenticated : Bool) (r : Rooms) (sid userId : String) : Rooms :=
  if authenticated then joinRoom r ("user_" ++ userId) sid else r

/-- The message emitted to a room by the presenceUpdate listener:
the formatted presence fields spread together with the user id and a
server timestamp. -/
structure BroadcastMsg where
  userId : String
  status : String
  activities : List ActivityRecord
  lastSeen : Option Nat
  guildId : Option String
  timestamp : Nat
deriving Repr, DecidableEq

/-- The presenceUpdate listener: events without a user id (falsy string)
are dropped; otherwise the formatted record is cached and emitted once to
every current member of the room of that user.  The result is the new
cache state and the delivery list of (socket id, message). -/
def onPresenceUpdate (r : Rooms) (cs : CacheState PresenceRecord) (now : Nat)
    (np : RawPresence) : CacheState PresenceRecord × List (String × BroadcastMsg) :=
  if np.userId = "" then (cs, [])
  else
    let pd := formatPresence now np
    (cachePresence cs np.userId pd now,
      (r ("user_" ++ np.userId)).map (fun sid =>
        (sid, { userId := pd.userId, status := pd.status, activities := pd.activities,
                lastSeen := pd.lastSeen, guildId := pd.guildId, timestamp := now })))

/-! ### Supporting lemmas -/

/-- A single getCache read performed at or before the observation time
never changes what a later getCache observes: a read either leaves the
map unchanged or deletes an entry that would in any case read as expired
later. -/
theorem getCache_fst_after_read {α : Type} (c : MemCache α) (k1 key : String)
    (t1 t : Nat) (hle : t1 ≤ t) :
    (getCache (getCache c k1 t1).2 key t).1 = (getCache c key t).1 := by
  rcases hck : c k1 with _ | e
  · simp [getCache, hck]
  · by_cases hexp : CACHE_TTL < t1 - e.timestamp
    · by_cases hkey : key = k1
      · subst hkey
        have hexp2 : CACHE_TTL < t - e.timestamp :=
          lt_of_lt_of_le hexp (Nat.sub_le_sub_right hle _)
        simp [getCache, hck, hexp, hexp2]
      · rcases hck2 : c key with _ | e2
        · simp [getCache, hck, hexp, hkey, hck2]
        · by_cases hexp2 : CACHE_TTL < t - e2.timestamp <;>
            simp [getCache, hck, hexp, hkey, hck2, hexp2]
    · simp [getCache, hck, hexp]

/-- A whole sequence of reads, each at or before the observation time,
never changes what a later getCache observes. -/
theorem getCache_fst_after_reads {α : Type} (reads : List (String × Nat))
    (c : MemCache α) (key : String) (t : Nat)
    (hall : ∀ p ∈ reads, p.2 ≤ t) :
    (getCache (doReads c reads) key t).1 = (getCache c key t).1 := by
  induction reads generalizing c with
  | nil => rfl
  | cons r rest ih =>
    rw [doReads, ih _ (fun p hp => hall p (List.mem_cons_of_mem _ hp))]
    exact getCache_fst_after_read c r.1 key r.2 t (hall r (List.mem_cons_self _ _))

/-! ### Claim C1 -/

/-- Claim C1, corrected at the TTL boundary: after setCache writes a
value at time t0, any getCache at time t preceded by arbitrarily many
intervening reads (each at or before t) returns exactly the written
value while at most CACHE_TTL milliseconds have elapsed, and returns
null once strictly more than CACHE_TTL milliseconds have elapsed;
moreover a key never written also reads as null, the very same result an
expired key gives, so the two cases are indistinguishable to the
caller. -/
theorem c1_cache_ttl_amended {α : Type} (c : MemCache α) (key : String) (v : α)
    (t0 t : Nat) (reads : List (String × Nat)) (hall : ∀ p ∈ reads, p.2 ≤ t) :
    ((t - t0 ≤ CACHE_TTL →
        (getCache (doReads (setCache c key v t0) reads) key t).1 = some v)
      ∧ (CACHE_TTL < t - t0 →
        (getCache (doReads (setCache c key v t0) reads) key t).1 = none))
    ∧ (∀ k, c k = none → (getCache c k t).1 = none) := by
  refine ⟨⟨fun hfresh => ?_, fun hexp => ?_⟩, fun k hk => ?_⟩
  · rw [getCache_fst_after_reads reads _ key t hall]
    simp [getCache, setCache, Nat.not_lt.mpr hfresh]
  · rw [getCache_fst_after_reads reads _ key t hall]
    simp [getCache, setCache, hexp]
  · simp [getCache, hk]

/-- Witness for C1 at concrete inputs: a fresh read through one
intervening read returns the written value, and a never-written key
reads as null. -/
theorem c1_cache_ttl_amended_witness :
    ((0 - 0 ≤ CACHE_TTL →
        (getCache (doReads (setCache (emptyMem (α := Nat)) "k" 42 0) [("k", 0)]) "k" 0).1
          = some 42)
      ∧ (CACHE_TTL < 0 - 0 →
        (getCache (doReads (setCache (emptyMem (α := Nat)) "k" 42 0) [("k", 0)]) "k" 0).1
          = none))
    ∧ (∀ k, emptyMem (α := Nat) k = none → (getCache (emptyMem (α := Nat)) k 0).1 = none) :=
  c1_cache_ttl_amended emptyMem "k" 42 0 0 [("k", 0)] (by decide)

/-- Counterexample to C1 as stated: five minutes after the write the TTL
has elapsed, yet getCache still returns the written value, because the
source compares with strict greater-than; the entry reads as absent only
strictly after the TTL. -/
theorem c1_counterexample :
    (getCache (setCache (emptyMem (α := Nat)) "k" 42 0) "k" CACHE_TTL).1 = some 42 := by
  decide

/-! ### Concrete handler states used by several counterexamples -/

/-- A handler whose client is not ready; upstream lookups are irrelevant. -/
def notReadyHandler : DiscordHandler :=
  { ready := false, users := fun _ => .error 0, guilds := fun _ => none,
    presences := fun _ => none }

/-- A ready handler that knows nothing: every user fetch fails with a
non-10013 code and no guild or presence is known. -/
def genericFailHandler : DiscordHandler :=
  { ready := true, users := fun _ => .error 0, guilds := fun _ => none,
    presences := fun _ => none }

/-! ### Claim C2 -/

/-- Counterexample to C2 as stated: with an empty cache and a client that
is not ready, getPresence throws the not-ready error and the presence
route answers 500 with no body, rather than returning the synthesized
offline default. -/
theorem c2_counterexample :
    (DiscordHandler.getPresence notReadyHandler emptyCS 0 "7" none).1 =
        .error .notReady
    ∧ (presenceRoute notReadyHandler emptyCS 0 "7" none).1 = 500
    ∧ (presenceRoute notReadyHandler emptyCS 0 "7" none).2.1 = none := by
  refine ⟨rfl, ?_, ?_⟩ <;> decide

/-- Claim C2, corrected: the synthesized offline default is returned only
when the client is ready; then, whenever no presence is known from any
path (presence cache miss, no guild-scoped presence for a supplied
context, no entry in the general presence cache), getPresence returns
the offline record with empty activities and null last-seen, not an
error.  When the client is not ready, getPresence instead surfaces an
error, as c2_counterexample shows. -/
theorem c2_offline_default_amended (h : DiscordHandler)
    (cs : CacheState PresenceRecord) (now : Nat) (userId : String)
    (guildId : Option String)
    (hready : h.ready = true)
    (hred : cs.redisConfigured = false)
    (hmem : cs.memory ("presence:" ++ userId) = none)
    (hgen : h.presences userId = none)
    (hctx : ∀ g, guildId = some g →
      h.guilds g = none ∨
        ∃ guild, h.guilds g = some guild ∧
          (guild.members userId = none ∨
            ∃ m, guild.members userId = some m ∧ m.presence = none)) :
    (DiscordHandler.getPresence h cs now userId guildId).1 =
      .ok (offlineDefault userId guildId) := by
  obtain ⟨rc, rf, rs, mem⟩ := cs
  simp only at hred hmem
  subst hred
  have hmiss : getCachedPresence ⟨false, rf, rs, mem⟩ userId now =
      (none, ⟨false, rf, rs, mem⟩) := by
    simp [getCachedPresence, getWithKey, getCache, hmem]
  cases guildId with
  | none =>
    simp [DiscordHandler.getPresence, hready, hmiss, generalLookup, hgen]
  | some g =>
    rcases hctx g rfl with hg | ⟨guild, hg, hm⟩
    · simp [DiscordHandler.getPresence, hready, hmiss, hg, generalLookup, hgen]
    · rcases hm with hm | ⟨m, hm, hp⟩
      · simp [DiscordHandler.getPresence, hready, hmiss, hg, hm, generalLookup, hgen]
      · simp [DiscordHandler.getPresence, hready, hmiss, hg, hm, hp, generalLookup, hgen]

/-- Witness for C2 at concrete inputs: a ready but empty handler with an
empty cache returns the offline default for user 7. -/
theorem c2_offline_default_amended_witness :
    (DiscordHandler.getPresence genericFailHandler emptyCS 0 "7" none).1 =
      .ok (offlineDefault "7" none) :=
  c2_offline_default_amended genericFailHandler emptyCS 0 "7" none rfl rfl rfl rfl
    (fun g hg => by cases hg)

/-! ### Claim C3 -/

/-- A fresh cached presence for user 7 whose context is guild 1. -/
def cachedGuild1Presence : PresenceRecord :=
  { userId := "7", status := "online", activities := [], lastSeen := some 0,
    guildId := some "1" }

/-- A cache whose memory holds cachedGuild1Presence under the presence
key of user 7, written at time 0. -/
def mismatchCS : CacheState PresenceRecord :=
  { redisConfigured := false, redisFailing := false, redisStore := fun _ => none,
    memory := setCache emptyMem "presence:7" cachedGuild1Presence 0 }

/-- The guild-scoped presence that guild 2 actually holds for user 7. -/
def guild2RawPresence : RawPresence :=
  { userId := "7", status := "dnd", activities := [], guildId := some "2" }

/-- A ready handler in which guild 2 exists and its member 7 carries
guild2RawPresence, so a context-scoped lookup for (2, 7) would
succeed. -/
def mismatchHandler : DiscordHandler :=
  { ready := true, users := fun _ => .error 0,
    guilds := fun g =>
      if g = "2" then
        some { members := fun u =>
          if u = "7" then some { presence := some guild2RawPresence } else none }
      else none,
    presences := fun _ => none }

/-- Claim C3 fails on the code: for the request for user 7 scoped to
guild 2, the route detects that the cached record belongs to guild 1 and
delegates to getPresence, but getPresence consults the presence cache
before ever looking at its guildId argument, so it answers 200 with the
very same guild-1 record and never attempts the guild-scoped member
fetch (the attempted flag is false), even though guild 2 holds a
different presence (status dnd, not online) for that user. -/
theorem c3_code_bug :
    (presenceRoute mismatchHandler mismatchCS 0 "7" (some "2")).1 = 200
    ∧ (presenceRoute mismatchHandler mismatchCS 0 "7" (some "2")).2.1 =
        some cachedGuild1Presence
    ∧ (presenceRoute mismatchHandler mismatchCS 0 "7" (some "2")).2.2.2 = false
    ∧ cachedGuild1Presence.guildId = some "1"
    ∧ (formatPresence 0 guild2RawPresence).status = "dnd"
    ∧ cachedGuild1Presence.status = "online" := by
  refine ⟨?_, ?_, ?_, rfl, rfl, rfl⟩ <;> decide

/-! ### Claim C4 -/

/-- Counterexample to C4 as stated: a cache-missing getUser on a
not-ready client produces the response status 500 with no body, exactly
the response produced by a generic internal upstream failure, so the
caller receives no ServiceUnavailable condition distinct from a generic
internal error (a distinct condition would be status 503, as the guilds
route uses). -/
theorem c4_counterexample :
    (usersRoute notReadyHandler emptyCS 0 "7").1 = 500
    ∧ (usersRoute notReadyHandler emptyCS 0 "7").2.1 = none
    ∧ (usersRoute genericFailHandler emptyCS 0 "7").1 = 500
    ∧ (usersRoute genericFailHandler emptyCS 0 "7").2.1 = none := by
  refine ⟨?_, ?_, ?_, ?_⟩ <;> decide

/-- Claim C4, corrected: a cache-missing getUser on a not-ready client
raises the not-ready error, which is a distinct condition from NotFound
at the service layer, but the users route maps it to status 500, the
same status as a generic internal error, not to a distinct
ServiceUnavailable status. -/
theorem c4_unavailable_amended (h : DiscordHandler) (cs : CacheState UserRecord)
    (now : Nat) (userId : String)
    (hready : h.ready = false)
    (hvalid : validId userId = true)
    (hred : cs.redisConfigured = false)
    (hmem : cs.memory ("user:" ++ userId) = none) :
    (DiscordHandler.getUser h cs now userId).1 = .error .notReady
    ∧ SvcError.notReady ≠ SvcError.api 10013
    ∧ (usersRoute h cs now userId).1 = 500 := by
  obtain ⟨rc, rf, rs, mem⟩ := cs
  simp only at hred hmem
  subst hred
  have hmiss : getCachedUser ⟨false, rf, rs, mem⟩ userId now =
      (none, ⟨false, rf, rs, mem⟩) := by
    simp [getCachedUser, getWithKey, getCache, hmem]
  refine ⟨?_, by simp, ?_⟩
  · simp [DiscordHandler.getUser, hready]
  · simp [usersRoute, hvalid, hmiss, DiscordHandler.getUser, hready]

/-- Witness for C4 at concrete inputs. -/
theorem c4_unavailable_amended_witness :
    (DiscordHandler.getUser notReadyHandler emptyCS 0 "7").1 = .error .notReady
    ∧ SvcError.notReady ≠ SvcError.api 10013
    ∧ (usersRoute notReadyHandler emptyCS 0 "7").1 = 500 :=
  c4_unavailable_amended notReadyHandler emptyCS 0 "7" rfl (by decide) rfl rfl

/-! ### Claim C5 -/

/-- A configured Redis backend whose every call currently throws, with
nothing stored anywhere. -/
def failingCS : CacheState Nat :=
  { redisConfigured := true, redisFailing := true, redisStore := fun _ => none,
    memory := emptyMem }

/-- Counterexample to C5 as stated: with Redis configured but failing,
cacheUser lands the value in the in-process fallback store, yet the very
next getCachedUser returns null instead of that fallback value, because
the failed Redis read only logs and returns null without consulting the
memory cache.  The value is not retrievable and the read does not
degrade to fallback-backend behavior. -/
theorem c5_counterexample :
    ((cacheUser failingCS "7" 42 0).memory "user:7" =
        some { data := 42, timestamp := 0 })
    ∧ (getCachedUser (cacheUser failingCS "7" 42 0) "7" 0).1 = none := by
  refine ⟨?_, ?_⟩ <;> decide

/-- Claim C5, corrected: Redis errors are indeed never propagated to the
caller, and a failed durable write does transparently retry against the
in-process fallback store; but a failed durable read returns absent
without consulting the fallback store and without touching any state, so
a value diverted to the fallback by a failed write stays unreadable for
as long as Redis is configured and failing. -/
theorem c5_degraded_amended {α : Type} (cs : CacheState α) (key : String) (v : α)
    (now : Nat) (hc : cs.redisConfigured = true) (hf : cs.redisFailing = true) :
    ((cacheWithKey cs key v now).memory key = some { data := v, timestamp := now })
    ∧ getWithKey cs key now = (none, cs)
    ∧ getWithKey (cacheWithKey cs key v now) key now = (none, cacheWithKey cs key v now) := by
  refine ⟨?_, ?_, ?_⟩
  · simp [cacheWithKey, hc, hf, setCache]
  · simp [getWithKey, hc, hf]
  · simp [getWithKey, cacheWithKey, hc, hf]

/-- Witness for C5 at concrete inputs. -/
theorem c5_degraded_amended_witness :
    ((cacheWithKey failingCS "user:7" 42 0).memory "user:7" =
        some { data := 42, timestamp := 0 })
    ∧ getWithKey failingCS "user:7" 0 = (none, failingCS)
    ∧ getWithKey (cacheWithKey failingCS "user:7" 42 0) "user:7" 0 =
        (none, cacheWithKey failingCS "user:7" 42 0) :=
  c5_degraded_amended failingCS "user:7" 42 0 rfl rfl

/-! ### Claim C6 -/

/-- Claim C6: formatUser and formatPresence are plain total functions of
their raw input (they are defined without any failure path, so in this
embedding totality is by construction), every absent optional input
field normalizes to an explicit null field rather than an omitted key
(the result types carry every field always), the activities of a
formatted presence are exactly the per-activity normalization of the raw
activities, and an absent asset hash inside a present asset bundle also
normalizes to null while a present hash resolves to a fully-qualified
URL. -/
theorem c6_normalizer_total (u : RawUser) (a : RawActivity) (p : RawPresence)
    (now : Nat) :
    ((u.avatar = none → (formatUser u).avatar = none)
      ∧ (u.banner = none → (formatUser u).banner = none)
      ∧ (u.hexAccentColor = none →
          (formatUser u).accentColor = none ∧ (formatUser u).bannerColor = none)
      ∧ (u.avatarDecorationAsset = none → (formatUser u).avatarDecoration = none))
    ∧ (formatPresence now p).activities = p.activities.map formatActivity
    ∧ ((a.assets = none → (formatActivity a).assets = none)
      ∧ (a.timestamps = none → (formatActivity a).timestamps = none)
      ∧ (a.details = none → (formatActivity a).details = none)
      ∧ (a.state = none → (formatActivity a).state = none)
      ∧ (a.applicationId = none → (formatActivity a).applicationId = none)
      ∧ (∀ b, a.assets = some b →
          (formatActivity a).assets = some (formatAssets a.applicationId b)
          ∧ (b.largeImage = none → (formatAssets a.applicationId b).largeImage = none)
          ∧ (b.smallImage = none → (formatAssets a.applicationId b).smallImage = none)
          ∧ (∀ hash, b.largeImage = some hash → hash ≠ "" →
              (formatAssets a.applicationId b).largeImage =
                some ("https://cdn.discordapp.com/app-assets/" ++ jsInterp a.applicationId
                  ++ "/" ++ hash ++ ".png")))) := by
  refine ⟨⟨fun h1 => ?_, fun h2 => ?_, fun h3 => ?_, fun h4 => ?_⟩, rfl,
    fun h5 => ?_, fun h6 => ?_, fun h7 => ?_, fun h8 => ?_, fun h9 => ?_,
    fun b hb => ⟨?_, fun hl => ?_, fun hs => ?_, fun hash hh hne => ?_⟩⟩
  · simp [formatUser, h1]
  · simp [formatUser, h2]
  · simp [formatUser, h3, jsOrNullStr]
  · simp [formatUser, h4, jsOrNullStr]
  · simp [formatActivity, h5]
  · simp [formatActivity, h6]
  · simp [formatActivity, h7, jsOrNullStr]
  · simp [formatActivity, h8, jsOrNullStr]
  · simp [formatActivity, h9, jsOrNullStr]
  · simp [formatActivity, hb]
  · simp [formatAssets, hl]
  · simp [formatAssets, hs]
  · simp [formatAssets, hh, hne]

/-- An entirely optional-free raw user for the C6 witness. -/
def bareRawUser : RawUser :=
  { id := "7", username := "a", displayName := "a", avatar := none,
    discriminator := "0", publicFlags := 0, banner := none, hexAccentColor := none,
    avatarDecorationAsset := none, premiumType := 0, verified := false,
    createdAt := "2020-01-01T00:00:00.000Z" }

/-- A raw activity with every optional field absent, for the C6 witness. -/
def bareRawActivity : RawActivity :=
  { name := "game", type := 0, details := none, state := none,
    applicationId := none, assets := none, timestamps := none }

/-- A raw presence with one bare activity, for the C6 witness. -/
def bareRawPresence : RawPresence :=
  { userId := "7", status := "idle", activities := [bareRawActivity], guildId := none }

/-- Witness for C6 at concrete inputs: absent raw fields come out as
explicit null fields. -/
theorem c6_normalizer_total_witness :
    (formatUser bareRawUser).avatar = none
    ∧ (formatPresence 5 bareRawPresence).activities =
        [bareRawActivity].map formatActivity
    ∧ (formatActivity bareRawActivity).assets = none :=
  ⟨((c6_normalizer_total bareRawUser bareRawActivity bareRawPresence 5).1.1 rfl),
    (c6_normalizer_total bareRawUser bareRawActivity bareRawPresence 5).2.1,
    ((c6_normalizer_total bareRawUser bareRawActivity bareRawPresence 5).2.2.1 rfl)⟩

/-! ### Claim C7 -/

/-- Claim C7: a getUser on an empty cache with a ready client whose
upstream fetch yields a raw user returns the formatted record, performs
exactly one upstream fetch, and writes the record into the cache; an
immediately following getUser (any time at most CACHE_TTL later) returns
the identical record while performing zero upstream fetches. -/
theorem c7_populate_then_hit (h : DiscordHandler) (userId : String) (raw : RawUser)
    (t1 t2 : Nat)
    (hready : h.ready = true)
    (hup : h.users userId = .ok raw)
    (hfresh : t2 - t1 ≤ CACHE_TTL) :
    (DiscordHandler.getUser h emptyCS t1 userId).1 = .ok (formatUser raw)
    ∧ (DiscordHandler.getUser h emptyCS t1 userId).2.2 = 1
    ∧ (DiscordHandler.getUser h emptyCS t1 userId).2.1 =
        cacheUser emptyCS userId (formatUser raw) t1
    ∧ (DiscordHandler.getUser h (cacheUser emptyCS userId (formatUser raw) t1)
        t2 userId).1 = .ok (formatUser raw)
    ∧ (DiscordHandler.getUser h (cacheUser emptyCS userId (formatUser raw) t1)
        t2 userId).2.2 = 0 := by
  have hmiss : getCachedUser (emptyCS (α := UserRecord)) userId t1 =
      (none, emptyCS) := by
    simp [getCachedUser, getWithKey, getCache, emptyCS, emptyMem]
  have hhit : getCachedUser (cacheUser emptyCS userId (formatUser raw) t1) userId t2 =
      (some (formatUser raw), cacheUser emptyCS userId (formatUser raw) t1) := by
    simp [getCachedUser, getWithKey, getCache, cacheUser, cacheWithKey, emptyCS,
      setCache, Nat.not_lt.mpr hfresh]
  refine ⟨?_, ?_, ?_, ?_, ?_⟩ <;>
    simp [DiscordHandler.getUser, hready, hmiss, hhit, hup]

/-- A ready handler whose upstream holds bareRawUser under id 7. -/
def oneUserHandler : DiscordHandler :=
  { ready := true,
    users := fun i => if i = "7" then .ok bareRawUser else .error 10013,
    guilds := fun _ => none, presences := fun _ => none }

/-- Witness for C7 at concrete inputs. -/
theorem c7_populate_then_hit_witness :
    (DiscordHandler.getUser oneUserHandler emptyCS 0 "7").1 = .ok (formatUser bareRawUser)
    ∧ (DiscordHandler.getUser oneUserHandler emptyCS 0 "7").2.2 = 1
    ∧ (DiscordHandler.getUser oneUserHandler emptyCS 0 "7").2.1 =
        cacheUser emptyCS "7" (formatUser bareRawUser) 0
    ∧ (DiscordHandler.getUser oneUserHandler
        (cacheUser emptyCS "7" (formatUser bareRawUser) 0) 0 "7").1 =
        .ok (formatUser bareRawUser)
    ∧ (DiscordHandler.getUser oneUserHandler
        (cacheUser emptyCS "7" (formatUser bareRawUser) 0) 0 "7").2.2 = 0 :=
  c7_populate_then_hit oneUserHandler "7" bareRawUser 0 0 rfl rfl (by decide)

/-! ### Claim C9 -/

/-- Claim C9: when the upstream fetch reports error code 10013 (unknown
or inaccessible user) on a cache miss, getUser surfaces that error
unchanged, leaves the cache state exactly as it was (no negative entry
is written), the users route maps it to 404 (distinct from the generic
500), and a later getUser performs a fresh upstream fetch again. -/
theorem c9_notfound_not_cached (h : DiscordHandler) (cs : CacheState UserRecord)
    (now now2 : Nat) (userId : String)
    (hready : h.ready = true)
    (hup : h.users userId = .error 10013)
    (hvalid : validId userId = true)
    (hred : cs.redisConfigured = false)
    (hmem : cs.memory ("user:" ++ userId) = none) :
    DiscordHandler.getUser h cs now userId = (.error (.api 10013), cs, 1)
    ∧ (usersRoute h cs now userId).1 = 404
    ∧ (DiscordHandler.getUser h cs now2 userId).2.2 = 1 := by
  obtain ⟨rc, rf, rs, mem⟩ := cs
  simp only at hred hmem
  subst hred
  have hmiss : ∀ t, getCachedUser ⟨false, rf, rs, mem⟩ userId t =
      (none, ⟨false, rf, rs, mem⟩) := by
    intro t
    simp [getCachedUser, getWithKey, getCache, hmem]
  refine ⟨?_, ?_, ?_⟩ <;>
    simp [DiscordHandler.getUser, usersRoute, hready, hvalid, hmiss, hup]

/-- A ready handler whose upstream reports code 10013 for every id. -/
def notFoundHandler : DiscordHandler :=
  { ready := true, users := fun _ => .error 10013,
    guilds := fun _ => none, presences := fun _ => none }

/-- Witness for C9 at concrete inputs. -/
theorem c9_notfound_not_cached_witness :
    DiscordHandler.getUser notFoundHandler emptyCS 0 "7" =
        (.error (.api 10013), emptyCS, 1)
    ∧ (usersRoute notFoundHandler emptyCS 0 "7").1 = 404
    ∧ (DiscordHandler.getUser notFoundHandler emptyCS 9 "7").2.2 = 1 :=
  c9_notfound_not_cached notFoundHandler emptyCS 0 9 "7" rfl rfl (by decide) rfl rfl

/-! ### Claim C8 -/

/-- joinRoom keeps room membership lists duplicate-free, so the nodup
invariant assumed by the fan-out claim is maintained by the subscribe
path. -/
theorem joinRoom_nodup (r : Rooms) (room sid : String)
    (hr : ∀ k, (r k).Nodup) : ∀ k, (joinRoom r room sid k).Nodup := by
  intro k
  by_cases hk : k = room
  · subst hk
    by_cases hmem : sid ∈ r k
    · simpa [joinRoom, hmem] using hr k
    · have h1 : (r k ++ [sid]).Nodup := by
        rw [List.nodup_append]
        exact ⟨hr k, List.nodup_singleton sid,
          by simpa [List.disjoint_singleton] using hmem⟩
      simpa [joinRoom, hmem] using h1
  · simpa [joinRoom, hk] using hr k

/-- Claim C8: for a presence push event for a user with a non-empty id,
every socket currently in the room of that user receives the broadcast
exactly once (counting deliveries addressed to it), a socket not in that
room receives nothing, and every delivered message carries the pushed
user id, its status, its normalized activities, the observation time as
both last-seen and timestamp, and its context id. -/
theorem c8_broadcast_once (r : Rooms) (cs : CacheState PresenceRecord) (now : Nat)
    (np : RawPresence) (sid : String)
    (hid : np.userId ≠ "")
    (hnd : (r ("user_" ++ np.userId)).Nodup) :
    (((onPresenceUpdate r cs now np).2.map Prod.fst).count sid =
        if sid ∈ r ("user_" ++ np.userId) then 1 else 0)
    ∧ ∀ d ∈ (onPresenceUpdate r cs now np).2,
        d.2 = { userId := np.userId, status := np.status,
                activities := np.activities.map formatActivity,
                lastSeen := some now, guildId := np.guildId, timestamp := now } := by
  have hmap : ((onPresenceUpdate r cs now np).2.map Prod.fst) =
      r ("user_" ++ np.userId) := by
    simp [onPresenceUpdate, hid, Function.comp_def]
  constructor
  · rw [hmap]
    by_cases hmem : sid ∈ r ("user_" ++ np.userId)
    · simp [hmem, List.count_eq_one_of_mem hnd hmem]
    · simp [hmem, List.count_eq_zero_of_not_mem hmem]
  · intro d hd
    simp only [onPresenceUpdate, hid, if_neg, formatPresence] at hd
    rcases List.mem_map.mp hd with ⟨s, _, hs⟩
    simp [← hs]

/-- Concrete rooms for the C8 witness: sockets a and b subscribed to
user 42, socket c subscribed to user 43 only. -/
def demoRooms : Rooms :=
  fun k => if k = "user_42" then ["a", "b"] else if k = "user_43" then ["c"] else []

/-- A concrete presence push for user 42, for the C8 witness. -/
def demoPush : RawPresence :=
  { userId := "42", status := "idle", activities := [], guildId := none }

/-- Witness for C8 at concrete inputs: subscriber a of topic 42 receives
the push exactly once and every delivered message is the expected one
(socket c, being only in the room of user 43, is not in the delivery
room). -/
theorem c8_broadcast_once_witness :
    (((onPresenceUpdate demoRooms emptyCS 5 demoPush).2.map Prod.fst).count "a" =
        if "a" ∈ demoRooms ("user_" ++ demoPush.userId) then 1 else 0)
    ∧ ∀ d ∈ (onPresenceUpdate demoRooms emptyCS 5 demoPush).2,
        d.2 = { userId := demoPush.userId, status := demoPush.status,
                activities := demoPush.activities.map formatActivity,
                lastSeen := some 5, guildId := demoPush.guildId, timestamp := 5 } :=
  c8_broadcast_once demoRooms emptyCS 5 demoPush "a" (by decide) (by decide)

/-! ### Claim C10 -/

/-- Appending to a fixed string on the left is injective on the right
argument. -/
theorem string_append_cancel {s t u : String} (h : s ++ t = s ++ u) : t = u := by
  rw [String.congr_append, String.congr_append] at h
  have h2 : s.data ++ t.data = s.data ++ u.data := congrArg String.data h
  exact congrArg String.mk (List.append_cancel_left h2)

/-- A user key never collides with a presence key. -/
theorem userKey_ne_presenceKey (j i : String) : "user:" ++ j ≠ "presence:" ++ i := by
  intro h
  rw [String.congr_append, String.congr_append] at h
  have h2 : ('u' :: ['s', 'e', 'r', ':']) ++ j.data =
      ('p' :: ['r', 'e', 's', 'e', 'n', 'c', 'e', ':']) ++ i.data :=
    congrArg String.data h
  have h3 := congrArg List.head? h2
  simp at h3

/-- A configured but failing Redis whose store still holds both entries
of user 7, the state in which the invalidateUser catch swallows the
rejected deletes. -/
def failingRedisWithData : CacheState Nat :=
  { redisConfigured := true, redisFailing := true,
    redisStore := fun k =>
      if k = "user:7" then some 1
      else if k = "presence:7" then some 2
      else none,
    memory := emptyMem }

/-- Counterexample to C10 as stated: with Redis configured but failing,
the deletes of invalidateUser throw, the catch only logs, and both
entries of the invalidated user survive untouched, so the operation
removes nothing in this reachable state. -/
theorem c10_counterexample :
    entryAt (invalidateUser failingRedisWithData "7") ("user:" ++ "7") = some 1
    ∧ entryAt (invalidateUser failingRedisWithData "7") ("presence:" ++ "7") = some 2 := by
  refine ⟨?_, ?_⟩ <;> decide

/-- Claim C10, corrected: provided Redis is not configured-and-failing
(in that state the swallowed delete removes nothing, see
c10_counterexample), invalidateUser removes both the user entry and the
presence entry of the given id in the one operation, leaves every other
key untouched, and in particular leaves both entries of every other id
untouched. -/
theorem c10_invalidate_frame {α : Type} (cs : CacheState α) (userId : String)
    (hok : cs.redisConfigured = true → cs.redisFailing = false) :
    entryAt (invalidateUser cs userId) ("user:" ++ userId) = none
    ∧ entryAt (invalidateUser cs userId) ("presence:" ++ userId) = none
    ∧ (∀ k, k ≠ "user:" ++ userId → k ≠ "presence:" ++ userId →
        entryAt (invalidateUser cs userId) k = entryAt cs k)
    ∧ (∀ j, j ≠ userId →
        entryAt (invalidateUser cs userId) ("user:" ++ j) = entryAt cs ("user:" ++ j)
        ∧ entryAt (invalidateUser cs userId) ("presence:" ++ j) =
            entryAt cs ("presence:" ++ j)) := by
  have hframe : ∀ k, k ≠ "user:" ++ userId → k ≠ "presence:" ++ userId →
      entryAt (invalidateUser cs userId) k = entryAt cs k := by
    intro k h1 h2
    rcases hc : cs.redisConfigured with _ | _
    · simp [invalidateUser, entryAt, hc, h1, h2]
    · simp [invalidateUser, entryAt, hc, hok hc, h1, h2]
  refine ⟨?_, ?_, hframe, fun j hj => ⟨?_, ?_⟩⟩
  · rcases hc : cs.redisConfigured with _ | _
    · simp [invalidateUser, entryAt, hc]
    · simp [invalidateUser, entryAt, hc, hok hc]
  · rcases hc : cs.redisConfigured with _ | _
    · simp [invalidateUser, entryAt, hc]
    · simp [invalidateUser, entryAt, hc, hok hc]
  · exact hframe _ (fun h => hj (string_append_cancel h))
      (userKey_ne_presenceKey j userId)
  · exact hframe _ (fun h => userKey_ne_presenceKey userId j h.symm)
      (fun h => hj (string_append_cancel h))

/-- A concrete two-user cache for the C10 witness. -/
def twoUserCS : CacheState Nat :=
  { redisConfigured := false, redisFailing := false, redisStore := fun _ => none,
    memory := setCache (setCache (setCache (setCache emptyMem
      "user:7" 1 0) "presence:7" 2 0) "user:8" 3 0) "presence:8" 4 0 }

/-- Witness for C10 at concrete inputs: invalidating user 7 clears both
of its entries and leaves both entries of user 8 in place. -/
theorem c10_invalidate_frame_witness :
    entryAt (invalidateUser twoUserCS "7") ("user:" ++ "7") = none
    ∧ entryAt (invalidateUser twoUserCS "7") ("presence:" ++ "7") = none
    ∧ (∀ k, k ≠ "user:" ++ "7" → k ≠ "presence:" ++ "7" →
        entryAt (invalidateUser twoUserCS "7") k = entryAt twoUserCS k)
    ∧ (∀ j, j ≠ "7" →
        entryAt (invalidateUser twoUserCS "7") ("user:" ++ j) =
            entryAt twoUserCS ("user:" ++ j)
        ∧ entryAt (invalidateUser twoUserCS "7") ("presence:" ++ j) =
            entryAt twoUserCS ("presence:" ++ j)) :=
  c10_invalidate_frame twoUserCS "7" (fun h => by cases h)
